import Mathlib

set_option maxRecDepth 4000

/-!
Shallow embedding of the PeLib `ImageLoader` component (ImageLoader.h) of the
retdec repository, together with proofs about its specified properties.

Machine integers are embedded as `Nat` with explicit `% 2^32` / `% 2^64`
where the C++ code relies on unsigned wrap-around.  Byte buffers
(`std::vector<std::uint8_t>`) are embedded as `List UInt8`.
-/

/-- Modelled from the spec: `PELIB_PAGE_SIZE` is defined in PeLibAux.h, which is
not among the visible sources; the spec fixes the page size at 4096 bytes. -/
def PELIB_PAGE_SIZE : Nat := 4096

/-- Modelled from the spec: `PELIB_PAGE_SIZE_SHIFT` from PeLibAux.h; the page
size is 2 ^ 12 = 4096, so the shift is 12. -/
def PELIB_PAGE_SIZE_SHIFT : Nat := 12

/-- Embedding of C `memcpy(buf.data() + off, data.data(), data.length)` on a
byte vector: overwrite the bytes of `buf` starting at `off` with `data`,
keeping the buffer length unchanged. -/
def listOverwrite (buf : List UInt8) (off : Nat) (data : List UInt8) : List UInt8 :=
  (List.range buf.length).map fun i =>
    if off ≤ i ∧ i < off + data.length then data.getD (i - off) 0 else buf.getD i 0

/-- Embedding of `std::vector<uint8_t>::resize(n)`: truncate to `n` elements,
or extend with zero bytes up to length `n`. -/
def listResize (buf : List UInt8) (n : Nat) : List UInt8 :=
  buf.take n ++ List.replicate (n - buf.length) 0

/-- Structure `PELIB_FILE_PAGE` (ImageLoader.h, lines 63-114): one page of the
virtual image.  `buffer` is empty if `isInvalidPage`. -/
structure PELIB_FILE_PAGE where
  buffer : List UInt8
  isInvalidPage : Bool
  isZeroPage : Bool
deriving Repr, DecidableEq

/-- Default constructor of `PELIB_FILE_PAGE`: `isInvalidPage = true`,
`isZeroPage = false`, and the vector `buffer` default-constructs empty. -/
def PELIB_FILE_PAGE.init : PELIB_FILE_PAGE :=
  { buffer := [], isInvalidPage := true, isZeroPage := false }

/-- Method `writeToPage(data, offset, length)`: if `offset` is within the page,
make sure the buffer is allocated at page size, clamp the length to the page
end, and copy the data. -/
def PELIB_FILE_PAGE.writeToPage (p : PELIB_FILE_PAGE) (data : List UInt8)
    (offset length : Nat) : PELIB_FILE_PAGE :=
  if offset < PELIB_PAGE_SIZE then
    let buf := if p.buffer.length ≠ PELIB_PAGE_SIZE then listResize p.buffer PELIB_PAGE_SIZE
               else p.buffer
    let len := if offset + length > PELIB_PAGE_SIZE then PELIB_PAGE_SIZE - offset else length
    { p with buffer := listOverwrite buf offset (data.take len) }
  else p

/-- Method `setValidPage(data, length)`: write the valid data to the page,
zero the rest of the page (`memset(buffer.data() + length, 0,
PELIB_PAGE_SIZE - length)`), and clear both flags.  The `memset` count is a C
`size_t` subtraction; the embedding uses truncated `Nat` subtraction, which
matches it for every `length ≤ PELIB_PAGE_SIZE`. -/
def PELIB_FILE_PAGE.setValidPage (p : PELIB_FILE_PAGE) (data : List UInt8)
    (length : Nat) : PELIB_FILE_PAGE :=
  let p1 := p.writeToPage data 0 length
  let p2 := { p1 with
              buffer := listOverwrite p1.buffer length
                          (List.replicate (PELIB_PAGE_SIZE - length) 0) }
  { p2 with isInvalidPage := false, isZeroPage := false }

/-- Method `setZeroPage()`: clear the buffer to save memory and mark the page
as a zero page. -/
def PELIB_FILE_PAGE.setZeroPage (p : PELIB_FILE_PAGE) : PELIB_FILE_PAGE :=
  { p with buffer := [], isInvalidPage := false, isZeroPage := true }

/-- One mutating operation on a `PELIB_FILE_PAGE`, used to state the
page-lifecycle invariant over arbitrary call sequences. -/
inductive PageOp where
  | setValid (data : List UInt8) (length : Nat)
  | setZero
  | write (data : List UInt8) (offset length : Nat)

/-- Apply one page operation. -/
def applyPageOp (p : PELIB_FILE_PAGE) : PageOp → PELIB_FILE_PAGE
  | .setValid data length => p.setValidPage data length
  | .setZero => p.setZeroPage
  | .write data offset length => p.writeToPage data offset length

/-- Run a sequence of page operations starting from a freshly constructed page. -/
def applyPageOps (ops : List PageOp) : PELIB_FILE_PAGE :=
  ops.foldl applyPageOp PELIB_FILE_PAGE.init

/-- The page invariant: the `isZeroPage` and `isInvalidPage` flags are never
both set, and a valid page (both flags clear) owns a buffer of exactly
`PELIB_PAGE_SIZE` bytes. -/
def pageInvariant (p : PELIB_FILE_PAGE) : Prop :=
  ¬(p.isZeroPage = true ∧ p.isInvalidPage = true) ∧
    (p.isZeroPage = false ∧ p.isInvalidPage = false →
      p.buffer.length = PELIB_PAGE_SIZE)

theorem length_listOverwrite (buf : List UInt8) (off : Nat) (data : List UInt8) :
    (listOverwrite buf off data).length = buf.length := by
  simp [listOverwrite]

theorem length_listResize (buf : List UInt8) (n : Nat) :
    (listResize buf n).length = n := by
  simp [listResize]
  omega

theorem writeToPage_isZeroPage (p : PELIB_FILE_PAGE) (data : List UInt8)
    (offset length : Nat) :
    (p.writeToPage data offset length).isZeroPage = p.isZeroPage := by
  unfold PELIB_FILE_PAGE.writeToPage
  split <;> rfl

theorem writeToPage_isInvalidPage (p : PELIB_FILE_PAGE) (data : List UInt8)
    (offset length : Nat) :
    (p.writeToPage data offset length).isInvalidPage = p.isInvalidPage := by
  unfold PELIB_FILE_PAGE.writeToPage
  split <;> rfl

theorem writeToPage_length_of_lt (p : PELIB_FILE_PAGE) (data : List UInt8)
    (offset length : Nat) (h : offset < PELIB_PAGE_SIZE) :
    (p.writeToPage data offset length).buffer.length = PELIB_PAGE_SIZE := by
  unfold PELIB_FILE_PAGE.writeToPage
  rw [if_pos h]
  simp only [length_listOverwrite]
  split
  · exact length_listResize _ _
  · omega

theorem writeToPage_length_eq (p : PELIB_FILE_PAGE) (data : List UInt8)
    (offset length : Nat) (h : p.buffer.length = PELIB_PAGE_SIZE) :
    (p.writeToPage data offset length).buffer.length = PELIB_PAGE_SIZE := by
  unfold PELIB_FILE_PAGE.writeToPage
  split
  · simp only [length_listOverwrite]
    split
    · exact length_listResize _ _
    · exact h
  · exact h

theorem setValidPage_isZeroPage (p : PELIB_FILE_PAGE) (data : List UInt8)
    (length : Nat) : (p.setValidPage data length).isZeroPage = false := rfl

theorem setValidPage_isInvalidPage (p : PELIB_FILE_PAGE) (data : List UInt8)
    (length : Nat) : (p.setValidPage data length).isInvalidPage = false := rfl

theorem setValidPage_length (p : PELIB_FILE_PAGE) (data : List UInt8)
    (length : Nat) :
    (p.setValidPage data length).buffer.length = PELIB_PAGE_SIZE := by
  unfold PELIB_FILE_PAGE.setValidPage
  simp only [length_listOverwrite]
  exact writeToPage_length_of_lt p data 0 length (by decide)

theorem pageInvariant_init : pageInvariant PELIB_FILE_PAGE.init := by
  constructor
  · intro h
    exact absurd h.1 (by decide)
  · intro h
    exact absurd h.2 (by simp [PELIB_FILE_PAGE.init])

theorem pageInvariant_step (p : PELIB_FILE_PAGE) (op : PageOp)
    (h : pageInvariant p) : pageInvariant (applyPageOp p op) := by
  cases op with
  | setValid data length =>
      simp only [applyPageOp]
      refine ⟨?_, ?_⟩
      · intro hc
        rw [setValidPage_isZeroPage] at hc
        exact absurd hc.1 (by decide)
      · intro _
        exact setValidPage_length p data length
  | setZero =>
      simp only [applyPageOp]
      refine ⟨?_, ?_⟩
      · intro hc
        simp [PELIB_FILE_PAGE.setZeroPage] at hc
      · intro hc
        simp [PELIB_FILE_PAGE.setZeroPage] at hc
  | write data offset length =>
      simp only [applyPageOp]
      refine ⟨?_, ?_⟩
      · intro hc
        rw [writeToPage_isZeroPage, writeToPage_isInvalidPage] at hc
        exact h.1 hc
      · intro hc
        rw [writeToPage_isZeroPage, writeToPage_isInvalidPage] at hc
        exact writeToPage_length_eq p data offset length (h.2 hc)

theorem pageInvariant_foldl (ops : List PageOp) (p : PELIB_FILE_PAGE)
    (h : pageInvariant p) : pageInvariant (ops.foldl applyPageOp p) := by
  induction ops generalizing p with
  | nil => exact h
  | cons op rest ih => exact ih _ (pageInvariant_step p op h)

/-- Claim C3: after any sequence of page operations (starting from the
constructed page), the flags `isZeroPage` and `isInvalidPage` are never both
true, and a valid page (both flags false) owns a buffer of exactly 4096
bytes. -/
theorem page_lifecycle_invariant (ops : List PageOp) :
    ¬((applyPageOps ops).isZeroPage = true ∧
        (applyPageOps ops).isInvalidPage = true) ∧
      ((applyPageOps ops).isZeroPage = false ∧
          (applyPageOps ops).isInvalidPage = false →
        (applyPageOps ops).buffer.length = 4096) := by
  have h := pageInvariant_foldl ops PELIB_FILE_PAGE.init pageInvariant_init
  exact ⟨h.1, h.2⟩

/-- Witness for C3: a concrete operation sequence exercising all three
operations, evaluated in full. -/
theorem page_lifecycle_invariant_witness :
    ¬((applyPageOps [PageOp.setZero, PageOp.write [1, 2] 4090 2]).isZeroPage = true ∧
        (applyPageOps [PageOp.setZero, PageOp.write [1, 2] 4090 2]).isInvalidPage = true) ∧
      ((applyPageOps [PageOp.setZero, PageOp.write [1, 2] 4090 2]).isZeroPage = false ∧
          (applyPageOps [PageOp.setZero, PageOp.write [1, 2] 4090 2]).isInvalidPage = false →
        (applyPageOps [PageOp.setZero, PageOp.write [1, 2] 4090 2]).buffer.length = 4096) :=
  page_lifecycle_invariant [PageOp.setZero, PageOp.write [1, 2] 4090 2]

/-- Modelled from the spec: the enumeration `LoaderError` is defined in
PeLibAux.h, which is not among the visible sources.  The constructors follow
the spec's error taxonomy (section 7); `ldrNone` is the success value. -/
inductive LoaderError where
  | ldrNone
  | ldrMalformedDosHeader
  | ldrMalformedNtHeader
  | ldrUnsupportedMachine
  | ldrSectionTableInconsistent
  | ldrLoadabilityViolation
  | ldrRelocMalformed
  | ldrRelocUnsupportedType
deriving Repr, DecidableEq

/-- Modelled from the spec: `PELIB_IMAGE_DATA_DIRECTORY` from PeLibAux.h (not
among the visible sources): one data-directory entry, an (RVA, size) pair. -/
structure PELIB_IMAGE_DATA_DIRECTORY where
  VirtualAddress : Nat
  Size : Nat
deriving Repr, DecidableEq

/-- Modelled from the spec: `PELIB_IMAGE_OPTIONAL_HEADER` from PeLibAux.h (not
among the visible sources).  Only the fields consulted by the embedded
operations are carried; all are unsigned, `ImageBase` 64-bit, the rest
32-bit. -/
structure PELIB_IMAGE_OPTIONAL_HEADER where
  ImageBase : Nat
  SizeOfImage : Nat
  SectionAlignment : Nat
  FileAlignment : Nat
  NumberOfRvaAndSizes : Nat
  DataDirectory : List PELIB_IMAGE_DATA_DIRECTORY
deriving Repr, DecidableEq

/-- State of the `ImageLoader` class (ImageLoader.h, lines 376-393): the page
vector, the optional header, the sticky loader error and the configuration
booleans relevant to the embedded operations. -/
structure ImageLoader where
  pages : List PELIB_FILE_PAGE
  optionalHeader : PELIB_IMAGE_OPTIONAL_HEADER
  ldrError : LoaderError
  ntHeadersSizeCheck : Bool
  sizeofImageMustMatch : Bool
  appContainerCheck : Bool
deriving Repr, DecidableEq

/-- Static method `AlignToSize(ByteSize, AlignSize)` (ImageLoader.h, lines
352-355): `(ByteSize + (AlignSize - 1)) & ~(AlignSize - 1)` computed in
32-bit unsigned arithmetic; the sum wraps modulo 2^32 and the complement is
taken on 32 bits. -/
def AlignToSize (ByteSize AlignSize : Nat) : Nat :=
  ((ByteSize + (AlignSize - 1)) % 2 ^ 32) &&& ((AlignSize - 1) ^^^ (2 ^ 32 - 1))

/-- Static method `BytesToPages(ByteSize)` (ImageLoader.h, lines 357-360):
`(ByteSize >> PELIB_PAGE_SIZE_SHIFT) + ((ByteSize & (PELIB_PAGE_SIZE - 1)) != 0)`. -/
def BytesToPages (ByteSize : Nat) : Nat :=
  (ByteSize >>> PELIB_PAGE_SIZE_SHIFT) +
    (if ByteSize &&& (PELIB_PAGE_SIZE - 1) ≠ 0 then 1 else 0)

/-- Getter `getSizeOfImage()` (ImageLoader.h, lines 238-241). -/
def ImageLoader.getSizeOfImage (img : ImageLoader) : Nat :=
  img.optionalHeader.SizeOfImage

/-- Getter `getSizeOfImageAligned()` (ImageLoader.h, lines 243-246):
`AlignToSize(optionalHeader.SizeOfImage, PELIB_PAGE_SIZE)`. -/
def ImageLoader.getSizeOfImageAligned (img : ImageLoader) : Nat :=
  AlignToSize img.optionalHeader.SizeOfImage PELIB_PAGE_SIZE

/-- Getter `getDataDirRva(dataDirIndex)` (ImageLoader.h, lines 273-277): the
entry's `VirtualAddress` when `NumberOfRvaAndSizes > dataDirIndex`, else 0. -/
def ImageLoader.getDataDirRva (img : ImageLoader) (dataDirIndex : Nat) : Nat :=
  if img.optionalHeader.NumberOfRvaAndSizes > dataDirIndex then
    (img.optionalHeader.DataDirectory.getD dataDirIndex ⟨0, 0⟩).VirtualAddress
  else 0

/-- Getter `getDataDirSize(dataDirIndex)` (ImageLoader.h, lines 279-283): the
entry's `Size` when `NumberOfRvaAndSizes > dataDirIndex`, else 0. -/
def ImageLoader.getDataDirSize (img : ImageLoader) (dataDirIndex : Nat) : Nat :=
  if img.optionalHeader.NumberOfRvaAndSizes > dataDirIndex then
    (img.optionalHeader.DataDirectory.getD dataDirIndex ⟨0, 0⟩).Size
  else 0

/-- Accessor `loaderError()` (declared at ImageLoader.h line 295; body not in
the visible sources; per the spec it reads the sticky error field). -/
def ImageLoader.loaderError (img : ImageLoader) : LoaderError :=
  img.ldrError

/-- Modelled from the spec: `setLoaderError` (declared at ImageLoader.h line
294; its body is not among the visible sources).  The spec: a setter that
records the first call only; subsequent calls are no-ops unless the error is
explicitly reset. -/
def ImageLoader.setLoaderError (img : ImageLoader) (ldrErr : LoaderError) : ImageLoader :=
  if img.ldrError = LoaderError.ldrNone then { img with ldrError := ldrErr } else img

/-- Modelled from the spec: `readFromPage` (declared at ImageLoader.h line 305;
body not among the visible sources).  Reading an invalid or zero page yields
zero bytes without requiring a backing buffer; a valid page reads its
buffer. -/
def readPageByte (page : PELIB_FILE_PAGE) (offsetInPage : Nat) : UInt8 :=
  if page.isInvalidPage || page.isZeroPage then 0
  else page.buffer.getD offsetInPage 0

/-- Modelled from the spec: the accessor's address translation,
`pageIndex = rva >> 12`, `offsetInPage = rva & 0xFFF`, dispatched per page
(the bodies of `readImage`/`readWriteImage` are not among the visible
sources). -/
def ImageLoader.readByte (img : ImageLoader) (rva : Nat) : UInt8 :=
  readPageByte (img.pages.getD (rva >>> PELIB_PAGE_SIZE_SHIFT) PELIB_FILE_PAGE.init)
    (rva &&& (PELIB_PAGE_SIZE - 1))

/-- Modelled from the spec: the number of bytes a call to `readImage` actually
transfers — the requested count clamped so the transfer never reaches past
the end of the aligned image, and zero when the start RVA lies at or beyond
`getSizeOfImageAligned()`. -/
def ImageLoader.readImageCount (img : ImageLoader) (rva bytesToRead : Nat) : Nat :=
  if rva < img.getSizeOfImageAligned then
    min bytesToRead (img.getSizeOfImageAligned - rva)
  else 0

/-- Modelled from the spec: `readImage(buffer, rva, bytesToRead)` (declared at
ImageLoader.h line 132; body not among the visible sources): returns the
bytes placed into the caller's buffer together with the number of bytes
transferred. -/
def ImageLoader.readImage (img : ImageLoader) (rva bytesToRead : Nat) :
    List UInt8 × Nat :=
  ((List.range (img.readImageCount rva bytesToRead)).map fun i =>
      img.readByte (rva + i),
    img.readImageCount rva bytesToRead)

/-- Page indices of the virtual image a call to `readImage` touches: one per
transferred byte. -/
def ImageLoader.readImageAccessedPages (img : ImageLoader) (rva bytesToRead : Nat) :
    List Nat :=
  (List.range (img.readImageCount rva bytesToRead)).map fun i =>
    (rva + i) >>> PELIB_PAGE_SIZE_SHIFT

/-- Claim C1: for every RVA range lying fully outside
`[0, getSizeOfImageAligned())`, `readImage` returns 0 as the number of bytes
transferred, places no bytes in the caller's buffer, and accesses no page of
the allocated virtual image. -/
theorem readImage_outside_aligned_image (img : ImageLoader) (rva bytesToRead : Nat)
    (h : img.getSizeOfImageAligned ≤ rva) :
    (img.readImage rva bytesToRead).2 = 0 ∧
      (img.readImage rva bytesToRead).1 = [] ∧
      img.readImageAccessedPages rva bytesToRead = [] := by
  have hc : img.readImageCount rva bytesToRead = 0 := by
    unfold ImageLoader.readImageCount
    rw [if_neg (by omega)]
  refine ⟨?_, ?_, ?_⟩ <;>
    simp [ImageLoader.readImage, ImageLoader.readImageAccessedPages, hc]

/-- Concrete optional header shared by the witnesses below: a 32-bit-style
image of size 0x2000 with two data directories. -/
def demoHeader : PELIB_IMAGE_OPTIONAL_HEADER :=
  { ImageBase := 0x400000, SizeOfImage := 0x2000, SectionAlignment := 0x1000,
    FileAlignment := 0x200, NumberOfRvaAndSizes := 2,
    DataDirectory := [⟨0, 0⟩, ⟨0x3000, 0x40⟩] }

/-- Concrete loader state shared by the witnesses below. -/
def demoLoader : ImageLoader :=
  { pages := List.replicate 2 PELIB_FILE_PAGE.init
    optionalHeader := demoHeader
    ldrError := LoaderError.ldrNone
    ntHeadersSizeCheck := true
    sizeofImageMustMatch := true
    appContainerCheck := false }

/-- Witness for C1: reading at RVA 0x5000, beyond the 0x2000-byte aligned
image, transfers nothing and touches no page. -/
theorem readImage_outside_aligned_image_witness :
    demoLoader.getSizeOfImageAligned ≤ 0x5000 ∧
      ((demoLoader.readImage 0x5000 16).2 = 0 ∧
        (demoLoader.readImage 0x5000 16).1 = [] ∧
        demoLoader.readImageAccessedPages 0x5000 16 = []) :=
  ⟨by decide, readImage_outside_aligned_image demoLoader 0x5000 16 (by decide)⟩

theorem and_high_mask_eq_zero (x : Nat) (hx : x < 4096) :
    x &&& 0xFFFFF000 = 0 := by
  apply Nat.eq_of_testBit_eq
  intro i
  simp only [Nat.testBit_and, Nat.zero_testBit]
  by_cases hi : i < 12
  · have hm : Nat.testBit 0xFFFFF000 i = false := by
      interval_cases i <;> decide
    simp [hm]
  · have hxi : x < 2 ^ i := by
      calc x < 4096 := hx
        _ = 2 ^ 12 := by norm_num
        _ ≤ 2 ^ i := Nat.pow_le_pow_right (by norm_num) (by omega)
    simp [Nat.testBit_lt_two_pow hxi]

/-- Claim C9: `AlignToSize`, and with it `getSizeOfImageAligned`, round in
32-bit arithmetic that wraps modulo 2^32: for every `SizeOfImage` strictly
greater than 0xFFFFF000 (and representable in 32 bits), the aligned size of
image overflows to 0 rather than a value at least `SizeOfImage`. -/
theorem getSizeOfImageAligned_overflows_to_zero (img : ImageLoader)
    (h1 : 0xFFFFF000 < img.optionalHeader.SizeOfImage)
    (h2 : img.optionalHeader.SizeOfImage < 2 ^ 32) :
    img.getSizeOfImageAligned = 0 := by
  unfold ImageLoader.getSizeOfImageAligned AlignToSize PELIB_PAGE_SIZE
  have hmask : ((4096 - 1) ^^^ (2 ^ 32 - 1) : Nat) = 0xFFFFF000 := by decide
  rw [hmask]
  exact and_high_mask_eq_zero _ (by omega)

/-- Concrete loader used by the overflow witness: `SizeOfImage` is the largest
32-bit value. -/
def demoOverflowLoader : ImageLoader :=
  { demoLoader with optionalHeader := { demoHeader with SizeOfImage := 0xFFFFFFFF } }

/-- Witness for C9: at `SizeOfImage = 0xFFFFFFFF` the aligned size of image is
0. -/
theorem getSizeOfImageAligned_overflows_to_zero_witness :
    0xFFFFF000 < demoOverflowLoader.optionalHeader.SizeOfImage ∧
      demoOverflowLoader.optionalHeader.SizeOfImage < 2 ^ 32 ∧
      demoOverflowLoader.getSizeOfImageAligned = 0 :=
  ⟨by decide, by decide,
    getSizeOfImageAligned_overflows_to_zero demoOverflowLoader (by decide) (by decide)⟩

/-- Claim C10: for every index at or above the optional header's
`NumberOfRvaAndSizes`, `getDataDirRva` and `getDataDirSize` return 0 without
touching the data-directory array; for every index below it (within the
array) they return the entry's `VirtualAddress` and `Size`. -/
theorem getDataDir_guarded (img : ImageLoader) (dataDirIndex : Nat) :
    (img.optionalHeader.NumberOfRvaAndSizes ≤ dataDirIndex →
        img.getDataDirRva dataDirIndex = 0 ∧ img.getDataDirSize dataDirIndex = 0) ∧
      (dataDirIndex < img.optionalHeader.NumberOfRvaAndSizes →
        ∀ h : dataDirIndex < img.optionalHeader.DataDirectory.length,
          img.getDataDirRva dataDirIndex =
              (img.optionalHeader.DataDirectory.get ⟨dataDirIndex, h⟩).VirtualAddress ∧
            img.getDataDirSize dataDirIndex =
              (img.optionalHeader.DataDirectory.get ⟨dataDirIndex, h⟩).Size) := by
  constructor
  · intro hle
    unfold ImageLoader.getDataDirRva ImageLoader.getDataDirSize
    rw [if_neg (by omega), if_neg (by omega)]
    exact ⟨rfl, rfl⟩
  · intro hlt h
    unfold ImageLoader.getDataDirRva ImageLoader.getDataDirSize
    rw [if_pos (by omega), if_pos (by omega)]
    rw [List.getD_eq_getElem _ _ h]
    simp [List.get_eq_getElem]

/-- Witness for C10: in the demo header (two directories), index 5 yields 0/0
and index 1 yields the stored entry (0x3000, 0x40). -/
theorem getDataDir_guarded_witness :
    (demoLoader.getDataDirRva 5 = 0 ∧ demoLoader.getDataDirSize 5 = 0) ∧
      (demoLoader.getDataDirRva 1 = 0x3000 ∧ demoLoader.getDataDirSize 1 = 0x40) := by
  have h1 := (getDataDir_guarded demoLoader 5).1 (by decide)
  have h2 := (getDataDir_guarded demoLoader 1).2 (by decide) (by decide)
  refine ⟨h1, ?_, ?_⟩
  · rw [h2.1]
    rfl
  · rw [h2.2]
    rfl

/-- Modelled from the spec: the base-relocation fixup types dispatched by the
Relocation Processor (`processImageRelocations`, declared at ImageLoader.h
lines 310-312; body not among the visible sources).  `ABSOLUTE` entries are
padding and are skipped; `HIGHLOW` is the 32-bit absolute fixup; `DIR64` the
64-bit absolute fixup. -/
inductive RelocType where
  | ABSOLUTE
  | HIGHLOW
  | DIR64
deriving Repr, DecidableEq

/-- Modelled from the spec: one base-relocation target — the RVA of the fixup,
its type, and the value currently stored at that RVA (a 4-byte value for
`HIGHLOW`, an 8-byte value for `DIR64`). -/
structure RelocTarget where
  rva : Nat
  type : RelocType
  value : Nat
deriving Repr, DecidableEq

/-- Modelled from the spec: the relocation-relevant state of a loaded image —
the current image base (the optional header's 64-bit `ImageBase`) and the
values stored at the relocation targets. -/
structure RelocState where
  imageBase : Nat
  targets : List RelocTarget
deriving Repr, DecidableEq

/-- Modelled from the spec: application of one fixup with base delta `delta`:
`HIGHLOW` adds the delta truncated to 32 bits to the 4-byte value at the
target RVA, `DIR64` adds the delta to the 8-byte value modulo 2^64,
`ABSOLUTE` entries are skipped. -/
def applyFixup (delta : Nat) (t : RelocTarget) : RelocTarget :=
  match t.type with
  | RelocType.ABSOLUTE => t
  | RelocType.HIGHLOW => { t with value := (t.value + delta) % 2 ^ 32 }
  | RelocType.DIR64 => { t with value := (t.value + delta) % 2 ^ 64 }

/-- Modelled from the spec: `relocateImage(newImageBase)` (declared at
ImageLoader.h line 130; body not among the visible sources): compute
`delta = newImageBase - imageBase` in 64-bit unsigned (wrap-around)
arithmetic, apply every fixup with that delta, and write the new image base
into the optional header. -/
def relocateImage (s : RelocState) (newImageBase : Nat) : RelocState :=
  { imageBase := newImageBase % 2 ^ 64,
    targets := s.targets.map
      (applyFixup ((newImageBase + (2 ^ 64 - s.imageBase % 2 ^ 64)) % 2 ^ 64)) }

/-- A relocation target is well formed when its stored value fits the fixup
width: 32 bits for `HIGHLOW`, 64 bits for `DIR64` and padding entries. -/
def targetWellFormed (t : RelocTarget) : Prop :=
  match t.type with
  | RelocType.ABSOLUTE => t.value < 2 ^ 64
  | RelocType.HIGHLOW => t.value < 2 ^ 32
  | RelocType.DIR64 => t.value < 2 ^ 64

theorem applyFixup_triple (t : RelocTarget) (d1 d2 d3 : Nat)
    (hd : (d1 + d2 + d3) % 2 ^ 64 = 0) (hwf : targetWellFormed t) :
    applyFixup d3 (applyFixup d2 (applyFixup d1 t)) = t := by
  obtain ⟨rva, ty, v⟩ := t
  cases ty with
  | ABSOLUTE => rfl
  | HIGHLOW =>
      have hv : v < 2 ^ 32 := hwf
      simp only [applyFixup, RelocTarget.mk.injEq, true_and]
      simp only [show (2 : Nat) ^ 32 = 4294967296 from by norm_num] at hv ⊢
      simp only [show (2 : Nat) ^ 64 = 18446744073709551616 from by norm_num] at hd
      omega
  | DIR64 =>
      have hv : v < 2 ^ 64 := hwf
      simp only [applyFixup, RelocTarget.mk.injEq, true_and]
      simp only [show (2 : Nat) ^ 64 = 18446744073709551616 from by norm_num] at hv hd ⊢
      omega

theorem map_applyFixup_triple (l : List RelocTarget) (d1 d2 d3 : Nat)
    (hd : (d1 + d2 + d3) % 2 ^ 64 = 0) (hwf : ∀ t ∈ l, targetWellFormed t) :
    ((l.map (applyFixup d1)).map (applyFixup d2)).map (applyFixup d3) = l := by
  induction l with
  | nil => rfl
  | cons t rest ih =>
      simp only [List.map_cons, List.cons.injEq]
      refine ⟨applyFixup_triple t d1 d2 d3 hd (hwf t (by simp)), ?_⟩
      exact ih fun x hx => hwf x (by simp [hx])

/-- Claim C2: for an image with original image base `B0` and any bases
`B1`, `B2`, calling `relocateImage(B1)`, then `relocateImage(B2)`, then
`relocateImage(B0)` restores every relocation-target value to its original
bytes, the additions being taken modulo 2^32 for 4-byte fixups and modulo
2^64 for 8-byte fixups. -/
theorem relocateImage_round_trip (s : RelocState) (newBase1 newBase2 : Nat)
    (hbase : s.imageBase < 2 ^ 64)
    (hwf : ∀ t ∈ s.targets, targetWellFormed t) :
    relocateImage (relocateImage (relocateImage s newBase1) newBase2) s.imageBase = s := by
  obtain ⟨base, targets⟩ := s
  simp only [relocateImage, RelocState.mk.injEq]
  constructor
  · simp only at hbase
    omega
  · simp only at hwf ⊢
    apply map_applyFixup_triple
    · simp only [show (2 : Nat) ^ 64 = 18446744073709551616 from by norm_num]
      omega
    · exact hwf

/-- Concrete relocation state for the round-trip witness: original base
0x400000 with one target of each fixup type. -/
def demoRelocState : RelocState :=
  { imageBase := 0x400000,
    targets := [⟨0x1004, RelocType.HIGHLOW, 0x00401000⟩,
                ⟨0x2000, RelocType.DIR64, 0x140001000⟩,
                ⟨0x2008, RelocType.ABSOLUTE, 7⟩] }

/-- Witness for C2: relocating the demo state to 0x10000000, then to
0x7FFE0000, then back to 0x400000 restores it exactly. -/
theorem relocateImage_round_trip_witness :
    demoRelocState.imageBase < 2 ^ 64 ∧
      (∀ t ∈ demoRelocState.targets, targetWellFormed t) ∧
      relocateImage (relocateImage (relocateImage demoRelocState 0x10000000) 0x7FFE0000)
          demoRelocState.imageBase = demoRelocState := by
  have hwf : ∀ t ∈ demoRelocState.targets, targetWellFormed t := by
    intro t ht
    simp only [demoRelocState, List.mem_cons, List.not_mem_nil, or_false] at ht
    rcases ht with h | h | h <;> subst h <;> norm_num [targetWellFormed]
  refine ⟨by norm_num [demoRelocState], hwf, ?_⟩
  exact relocateImage_round_trip demoRelocState 0x10000000 0x7FFE0000
    (by norm_num [demoRelocState]) hwf

/-- Concrete relocation state for the HIGHLOW scenario: original image base
0x00400000, one HIGHLOW entry targeting RVA 0x1004 whose 4-byte value is
0x00401000. -/
def demoHighlowState : RelocState :=
  { imageBase := 0x00400000,
    targets := [⟨0x1004, RelocType.HIGHLOW, 0x00401000⟩] }

/-- Claim C6: after `relocateImage(0x10000000)` the 4-byte value at RVA 0x1004
equals 0x10001000; and in general a HIGHLOW fixup adds the base delta
truncated to 32 bits to the 4-byte value at the target RVA. -/
theorem highlow_fixup_scenario :
    (relocateImage demoHighlowState 0x10000000).targets =
        [⟨0x1004, RelocType.HIGHLOW, 0x10001000⟩] ∧
      ∀ (delta : Nat) (t : RelocTarget), t.type = RelocType.HIGHLOW →
        applyFixup delta t = { t with value := (t.value + delta) % 2 ^ 32 } := by
  constructor
  · decide
  · intro delta t ht
    unfold applyFixup
    rw [ht]

/-- Witness for C6: the general HIGHLOW part of the claim evaluated at the
scenario's own entry, with the delta 0x0FC00000 of the scenario. -/
theorem highlow_fixup_scenario_witness :
    (⟨0x1004, RelocType.HIGHLOW, 0x00401000⟩ : RelocTarget).type = RelocType.HIGHLOW ∧
      applyFixup 0x0FC00000 ⟨0x1004, RelocType.HIGHLOW, 0x00401000⟩ =
        ⟨0x1004, RelocType.HIGHLOW, (0x00401000 + 0x0FC00000) % 2 ^ 32⟩ :=
  ⟨rfl, highlow_fixup_scenario.2 0x0FC00000 ⟨0x1004, RelocType.HIGHLOW, 0x00401000⟩ rfl⟩

theorem setLoaderError_ne_none (img : ImageLoader) (e : LoaderError)
    (he : e ≠ LoaderError.ldrNone) :
    (img.setLoaderError e).ldrError ≠ LoaderError.ldrNone := by
  unfold ImageLoader.setLoaderError
  split
  · exact he
  · next h => exact h

theorem setLoaderError_of_ne (img : ImageLoader) (e : LoaderError)
    (h : img.ldrError ≠ LoaderError.ldrNone) : img.setLoaderError e = img := by
  unfold ImageLoader.setLoaderError
  rw [if_neg h]

theorem foldl_setLoaderError_of_ne (es : List LoaderError) (img : ImageLoader)
    (h : img.ldrError ≠ LoaderError.ldrNone) :
    es.foldl ImageLoader.setLoaderError img = img := by
  induction es with
  | nil => rfl
  | cons e rest ih =>
      rw [List.foldl_cons, setLoaderError_of_ne img e h]
      exact ih

/-- Claim C7: the loader error is sticky and first-wins — once `setLoaderError`
has recorded a non-success value, any sequence of later `setLoaderError`
calls is a no-op and in particular leaves the value returned by
`loaderError()` unchanged. -/
theorem loaderError_sticky (img : ImageLoader) (e : LoaderError)
    (es : List LoaderError) (he : e ≠ LoaderError.ldrNone) :
    es.foldl ImageLoader.setLoaderError (img.setLoaderError e) = img.setLoaderError e ∧
      (es.foldl ImageLoader.setLoaderError (img.setLoaderError e)).loaderError =
        (img.setLoaderError e).loaderError := by
  have h := foldl_setLoaderError_of_ne es _ (setLoaderError_ne_none img e he)
  exact ⟨h, by rw [h]⟩

/-- Witness for C7: after recording a malformed-DOS-header error on the demo
loader, two further setter calls change nothing. -/
theorem loaderError_sticky_witness :
    LoaderError.ldrMalformedDosHeader ≠ LoaderError.ldrNone ∧
      ([LoaderError.ldrNone, LoaderError.ldrUnsupportedMachine].foldl
            ImageLoader.setLoaderError
            (demoLoader.setLoaderError LoaderError.ldrMalformedDosHeader) =
          demoLoader.setLoaderError LoaderError.ldrMalformedDosHeader ∧
        ([LoaderError.ldrNone, LoaderError.ldrUnsupportedMachine].foldl
              ImageLoader.setLoaderError
              (demoLoader.setLoaderError LoaderError.ldrMalformedDosHeader)).loaderError =
          (demoLoader.setLoaderError LoaderError.ldrMalformedDosHeader).loaderError) :=
  ⟨by decide,
    loaderError_sticky demoLoader LoaderError.ldrMalformedDosHeader
      [LoaderError.ldrNone, LoaderError.ldrUnsupportedMachine] (by decide)⟩

/-- Modelled from the spec: the facts about a captured image that the
Loadability Validator consults; each is established by Header Capture and the
Section Mapper, whose bodies are not among the visible sources (spec
section 4.4). -/
structure ImageFacts where
  dosHeaderValid : Bool
  ntHeadersSizeOk : Bool
  machineSupported : Bool
  appContainerOk : Bool
  sizeOfImageMatches : Bool
  sectionsWithinImage : Bool
  alignmentsValid : Bool
deriving Repr, DecidableEq

/-- Modelled from the spec: the ordered checks of the Loadability Validator
(`isImageLoadable`, declared at ImageLoader.h lines 345-348; body not among
the visible sources), each paired with the specific non-success `LoaderError`
cause recorded on failure. -/
def validatorChecks (img : ImageLoader) (facts : ImageFacts) :
    List (Bool × LoaderError) :=
  [ (facts.dosHeaderValid, LoaderError.ldrMalformedDosHeader),
    (!img.ntHeadersSizeCheck || facts.ntHeadersSizeOk, LoaderError.ldrMalformedNtHeader),
    (facts.machineSupported, LoaderError.ldrUnsupportedMachine),
    (!img.appContainerCheck || facts.appContainerOk, LoaderError.ldrLoadabilityViolation),
    (!img.sizeofImageMustMatch || facts.sizeOfImageMatches, LoaderError.ldrLoadabilityViolation),
    (facts.sectionsWithinImage && facts.alignmentsValid, LoaderError.ldrSectionTableInconsistent) ]

/-- Modelled from the spec: run the validator checks in order; every failing
check records its cause through the sticky `setLoaderError` and forces the
verdict to false. -/
def runValidator (img : ImageLoader) (facts : ImageFacts) : ImageLoader × Bool :=
  (validatorChecks img facts).foldl
    (fun acc c => if c.1 then acc else (acc.1.setLoaderError c.2, false))
    (img, true)

/-- Modelled from the spec: the boolean verdict of `isImageLoadable()` — would
the real loader accept this image for SEC_IMAGE mapping. -/
def ImageLoader.isImageLoadable (img : ImageLoader) (facts : ImageFacts) : Bool :=
  (runValidator img facts).2

theorem foldl_checks_error (cs : List (Bool × LoaderError)) (s : ImageLoader × Bool)
    (hcs : ∀ c ∈ cs, c.2 ≠ LoaderError.ldrNone)
    (hs : s.2 = false → s.1.ldrError ≠ LoaderError.ldrNone) :
    (cs.foldl (fun acc c => if c.1 then acc else (acc.1.setLoaderError c.2, false)) s).2 = false →
      (cs.foldl (fun acc c => if c.1 then acc else (acc.1.setLoaderError c.2, false)) s).1.ldrError ≠
        LoaderError.ldrNone := by
  induction cs generalizing s with
  | nil => exact hs
  | cons c rest ih =>
      cases hc : c.1 with
      | false =>
          simp only [List.foldl_cons, hc, Bool.false_eq_true, if_false]
          apply ih
          · intro x hx
            exact hcs x (List.mem_cons_of_mem c hx)
          · intro _
            exact setLoaderError_ne_none s.1 c.2 (hcs c (List.mem_cons_self c rest))
      | true =>
          simp only [List.foldl_cons, hc, if_true]
          apply ih
          · intro x hx
            exact hcs x (List.mem_cons_of_mem c hx)
          · exact hs

/-- Claim C8: whenever `isImageLoadable` is false, a specific cause accompanies
the verdict — `loaderError()` of the validated state is a non-success
value. -/
theorem isImageLoadable_false_implies_error (img : ImageLoader) (facts : ImageFacts)
    (h : img.isImageLoadable facts = false) :
    (runValidator img facts).1.loaderError ≠ LoaderError.ldrNone := by
  have hcs : ∀ c ∈ validatorChecks img facts, c.2 ≠ LoaderError.ldrNone := by
    intro c hc
    simp only [validatorChecks, List.mem_cons, List.not_mem_nil, or_false] at hc
    rcases hc with h1 | h1 | h1 | h1 | h1 | h1 <;> subst h1 <;> simp
  have hs : ((img, true) : ImageLoader × Bool).2 = false →
      ((img, true) : ImageLoader × Bool).1.ldrError ≠ LoaderError.ldrNone := by
    intro hcontra
    simp at hcontra
  unfold ImageLoader.isImageLoadable at h
  unfold ImageLoader.loaderError runValidator
  exact foldl_checks_error _ _ hcs hs h

/-- Facts with an unsupported machine type, failing the validator. -/
def demoBadFacts : ImageFacts :=
  { dosHeaderValid := true, ntHeadersSizeOk := true, machineSupported := false,
    appContainerOk := true, sizeOfImageMatches := true,
    sectionsWithinImage := true, alignmentsValid := true }

/-- Witness for C8: on the demo loader with an unsupported machine the verdict
is false and a non-success error is recorded. -/
theorem isImageLoadable_false_implies_error_witness :
    demoLoader.isImageLoadable demoBadFacts = false ∧
      (runValidator demoLoader demoBadFacts).1.loaderError ≠ LoaderError.ldrNone :=
  ⟨by decide, isImageLoadable_false_implies_error demoLoader demoBadFacts (by decide)⟩

/-- Modelled from the spec: one input section description consumed by the
Section Mapper (`captureImageSection`, declared at ImageLoader.h lines
327-333; body not among the visible sources). -/
structure SectionSpec where
  virtualAddress : Nat
  virtualSize : Nat
  pointerToRawData : Nat
  sizeOfRawData : Nat
deriving Repr, DecidableEq

/-- Modelled from the spec: mapping of the `i`-th destination page of a
section.  A page wholly inside the copied `min(sizeOfRawData, virtualSize)`
bytes becomes a valid page of file data; the page straddling the end of the
copied data becomes a valid page holding the partial data, the rest of its
buffer zero-filled by `setValidPage`; a destination page wholly beyond the
copied data is marked a zero page. -/
def capturePageStep (fileData : List UInt8) (s : SectionSpec)
    (pgs : List PELIB_FILE_PAGE) (i : Nat) : List PELIB_FILE_PAGE :=
  let pageIndex := (s.virtualAddress >>> PELIB_PAGE_SIZE_SHIFT) + i
  let before := i * PELIB_PAGE_SIZE
  let sizeToCopy := min s.sizeOfRawData s.virtualSize
  let oldPage := pgs.getD pageIndex PELIB_FILE_PAGE.init
  let newPage :=
    if before + PELIB_PAGE_SIZE ≤ sizeToCopy then
      oldPage.setValidPage
        ((fileData.drop (s.pointerToRawData + before)).take PELIB_PAGE_SIZE)
        PELIB_PAGE_SIZE
    else if before < sizeToCopy then
      oldPage.setValidPage
        ((fileData.drop (s.pointerToRawData + before)).take (sizeToCopy - before))
        (sizeToCopy - before)
    else
      oldPage.setZeroPage
  pgs.set pageIndex newPage

/-- Modelled from the spec: `captureImageSection` — map every destination page
of the section, walking the destination page range in order. -/
def ImageLoader.captureImageSection (img : ImageLoader) (fileData : List UInt8)
    (s : SectionSpec) : ImageLoader :=
  { img with
    pages := (List.range (BytesToPages s.virtualSize)).foldl
      (capturePageStep fileData s) img.pages }

/-- Modelled from the spec: `Load` (declared at ImageLoader.h lines 126-128;
bodies not among the visible sources): allocate the page vector with
`BytesToPages(getSizeOfImageAligned())` freshly constructed pages, map every
section through `captureImageSection`, then run the Loadability Validator.
Returns the populated state together with the success flag. -/
def ImageLoader.loadImage (img : ImageLoader) (fileData : List UInt8)
    (secs : List SectionSpec) (facts : ImageFacts) : ImageLoader × Bool :=
  runValidator
    (secs.foldl (fun a s => a.captureImageSection fileData s)
      { img with
        pages := List.replicate (BytesToPages img.getSizeOfImageAligned)
          PELIB_FILE_PAGE.init })
    facts

theorem length_capturePageStep (fileData : List UInt8) (s : SectionSpec)
    (pgs : List PELIB_FILE_PAGE) (i : Nat) :
    (capturePageStep fileData s pgs i).length = pgs.length := by
  unfold capturePageStep
  simp [List.length_set]

theorem length_foldl_capturePageStep (l : List Nat) (fileData : List UInt8)
    (s : SectionSpec) (pgs : List PELIB_FILE_PAGE) :
    (l.foldl (capturePageStep fileData s) pgs).length = pgs.length := by
  induction l generalizing pgs with
  | nil => rfl
  | cons i rest ih =>
      rw [List.foldl_cons, ih, length_capturePageStep]

theorem captureImageSection_pages_length (img : ImageLoader) (fileData : List UInt8)
    (s : SectionSpec) :
    (img.captureImageSection fileData s).pages.length = img.pages.length := by
  unfold ImageLoader.captureImageSection
  exact length_foldl_capturePageStep _ _ _ _

theorem captureImageSection_optionalHeader (img : ImageLoader) (fileData : List UInt8)
    (s : SectionSpec) :
    (img.captureImageSection fileData s).optionalHeader = img.optionalHeader := rfl

theorem foldl_capture_sections (secs : List SectionSpec) (fileData : List UInt8)
    (img : ImageLoader) :
    (secs.foldl (fun a s => a.captureImageSection fileData s) img).pages.length
        = img.pages.length ∧
      (secs.foldl (fun a s => a.captureImageSection fileData s) img).optionalHeader
        = img.optionalHeader := by
  induction secs generalizing img with
  | nil => exact ⟨rfl, rfl⟩
  | cons s rest ih =>
      rw [List.foldl_cons]
      refine ⟨?_, ?_⟩
      · rw [(ih (img.captureImageSection fileData s)).1,
          captureImageSection_pages_length]
      · rw [(ih (img.captureImageSection fileData s)).2]
        rfl

theorem setLoaderError_pages (img : ImageLoader) (e : LoaderError) :
    (img.setLoaderError e).pages = img.pages := by
  unfold ImageLoader.setLoaderError
  split <;> rfl

theorem setLoaderError_optionalHeader (img : ImageLoader) (e : LoaderError) :
    (img.setLoaderError e).optionalHeader = img.optionalHeader := by
  unfold ImageLoader.setLoaderError
  split <;> rfl

theorem foldl_checks_preserves (cs : List (Bool × LoaderError))
    (s : ImageLoader × Bool) :
    (cs.foldl (fun acc c => if c.1 then acc else (acc.1.setLoaderError c.2, false)) s).1.pages
        = s.1.pages ∧
      (cs.foldl (fun acc c => if c.1 then acc else (acc.1.setLoaderError c.2, false)) s).1.optionalHeader
        = s.1.optionalHeader := by
  induction cs generalizing s with
  | nil => exact ⟨rfl, rfl⟩
  | cons c rest ih =>
      cases hc : c.1 with
      | false =>
          simp only [List.foldl_cons, hc, Bool.false_eq_true, if_false]
          refine ⟨?_, ?_⟩
          · rw [(ih _).1]
            exact setLoaderError_pages s.1 c.2
          · rw [(ih _).2]
            exact setLoaderError_optionalHeader s.1 c.2
      | true =>
          simp only [List.foldl_cons, hc, if_true]
          exact ih s

theorem runValidator_preserves (img : ImageLoader) (facts : ImageFacts) :
    (runValidator img facts).1.pages = img.pages ∧
      (runValidator img facts).1.optionalHeader = img.optionalHeader := by
  unfold runValidator
  exact foldl_checks_preserves _ _

theorem BytesToPages_eq_ceil (n : Nat) :
    BytesToPages n = (n + PELIB_PAGE_SIZE - 1) / PELIB_PAGE_SIZE := by
  unfold BytesToPages PELIB_PAGE_SIZE PELIB_PAGE_SIZE_SHIFT
  rw [Nat.shiftRight_eq_div_pow,
    show (4096 - 1 : Nat) = 2 ^ 12 - 1 from by norm_num,
    Nat.and_pow_two_sub_one_eq_mod]
  norm_num
  split <;> omega

/-- Claim C4: after every successful call to `Load`, the number of pages in
the virtual image equals `ceil(getSizeOfImageAligned() / 4096)`. -/
theorem loadImage_pages_count (img : ImageLoader) (fileData : List UInt8)
    (secs : List SectionSpec) (facts : ImageFacts)
    (hsuccess : (img.loadImage fileData secs facts).2 = true) :
    (img.loadImage fileData secs facts).1.pages.length =
      ((img.loadImage fileData secs facts).1.getSizeOfImageAligned + 4096 - 1) / 4096 := by
  unfold ImageLoader.loadImage
  simp only [ImageLoader.getSizeOfImageAligned, (runValidator_preserves _ _).1,
    (runValidator_preserves _ _).2, (foldl_capture_sections _ _ _).1,
    (foldl_capture_sections _ _ _).2, List.length_replicate]
  exact BytesToPages_eq_ceil _

/-- Facts under which every validator check passes. -/
def demoGoodFacts : ImageFacts :=
  { dosHeaderValid := true, ntHeadersSizeOk := true, machineSupported := true,
    appContainerOk := true, sizeOfImageMatches := true,
    sectionsWithinImage := true, alignmentsValid := true }

/-- Witness for C4: loading the demo image (no sections, all checks passing)
succeeds and produces exactly 2 = ceil(0x2000 / 4096) pages. -/
theorem loadImage_pages_count_witness :
    (demoLoader.loadImage [] [] demoGoodFacts).2 = true ∧
      (demoLoader.loadImage [] [] demoGoodFacts).1.pages.length =
        ((demoLoader.loadImage [] [] demoGoodFacts).1.getSizeOfImageAligned + 4096 - 1) / 4096 :=
  ⟨by decide, loadImage_pages_count demoLoader [] [] demoGoodFacts (by decide)⟩

theorem getD_listOverwrite (buf : List UInt8) (off : Nat) (data : List UInt8)
    (i : Nat) (hi : i < buf.length) :
    (listOverwrite buf off data).getD i 0 =
      if off ≤ i ∧ i < off + data.length then data.getD (i - off) 0
      else buf.getD i 0 := by
  unfold listOverwrite
  rw [List.getD_eq_getElem _ _ (by simpa using hi)]
  simp

theorem getD_replicate (n i : Nat) (a : UInt8) (hi : i < n) :
    (List.replicate n a).getD i 0 = a := by
  rw [List.getD_eq_getElem _ _ (by simpa using hi)]
  simp

theorem writeToPage_zero_getD_lt (p : PELIB_FILE_PAGE) (data : List UInt8)
    (L i : Nat) (hL : L ≤ PELIB_PAGE_SIZE) (hd : L ≤ data.length) (hi : i < L) :
    (p.writeToPage data 0 L).buffer.getD i 0 = (data.take L).getD i 0 := by
  unfold PELIB_FILE_PAGE.writeToPage
  rw [if_pos (show (0 : Nat) < PELIB_PAGE_SIZE by decide)]
  dsimp only
  rw [show (if 0 + L > PELIB_PAGE_SIZE then PELIB_PAGE_SIZE - 0 else L) = L from by
    rw [if_neg]; omega]
  have hlen : (if p.buffer.length ≠ PELIB_PAGE_SIZE then listResize p.buffer PELIB_PAGE_SIZE
      else p.buffer).length = PELIB_PAGE_SIZE := by
    split
    · exact length_listResize _ _
    · omega
  rw [getD_listOverwrite _ _ _ i (by omega)]
  rw [if_pos ⟨Nat.zero_le i, by simp [List.length_take]; omega⟩]
  rfl

theorem setValidPage_getD (p : PELIB_FILE_PAGE) (data : List UInt8) (L i : Nat)
    (hL : L ≤ PELIB_PAGE_SIZE) (hd : data.length = L) (hi : i < PELIB_PAGE_SIZE) :
    (p.setValidPage data L).buffer.getD i 0 =
      if i < L then data.getD i 0 else 0 := by
  unfold PELIB_FILE_PAGE.setValidPage
  dsimp only
  have hB1 : (p.writeToPage data 0 L).buffer.length = PELIB_PAGE_SIZE :=
    writeToPage_length_of_lt p data 0 L (by decide)
  rw [getD_listOverwrite _ _ _ i (by omega)]
  by_cases hiL : i < L
  · rw [if_neg (by rintro ⟨h1, _⟩; omega), if_pos hiL]
    rw [writeToPage_zero_getD_lt p data L i hL (by omega) hiL]
    rw [List.getD_eq_getElem _ _ (by simp [List.length_take]; omega),
      List.getD_eq_getElem _ _ (by omega)]
    simp
  · rw [if_pos ⟨(by omega : L ≤ i),
        (by rw [List.length_replicate]; omega :
          i < L + (List.replicate (PELIB_PAGE_SIZE - L) (0 : UInt8)).length)⟩,
      if_neg hiL]
    exact getD_replicate _ _ _ (by omega)

theorem readPageByte_setValidPage (p : PELIB_FILE_PAGE) (data : List UInt8)
    (L off : Nat) :
    readPageByte (p.setValidPage data L) off =
      (p.setValidPage data L).buffer.getD off 0 := by
  unfold readPageByte
  rw [setValidPage_isInvalidPage, setValidPage_isZeroPage]
  simp

/-- File content of the C5 scenario: 0x100 bytes of value 0xAA at raw
pointer 0. -/
def demoFileData : List UInt8 := List.replicate 0x100 0xAA

/-- Section of the C5 scenario: VA 0x1000, virtual size 0x200, raw size
0x100 (raw size smaller than virtual size). -/
def demoSection1 : SectionSpec :=
  { virtualAddress := 0x1000, virtualSize := 0x200,
    pointerToRawData := 0, sizeOfRawData := 0x100 }

/-- The demo loader after capturing the C5 scenario section. -/
def demoCaptured1 : ImageLoader :=
  demoLoader.captureImageSection demoFileData demoSection1

/-- Three-page loader for the variant scenario. -/
def demoLoader3 : ImageLoader :=
  { pages := List.replicate 3 PELIB_FILE_PAGE.init
    optionalHeader := { demoHeader with SizeOfImage := 0x3000 }
    ldrError := LoaderError.ldrNone
    ntHeadersSizeCheck := true
    sizeofImageMustMatch := true
    appContainerCheck := false }

/-- Variant section: virtual size 0x2000, so its second destination page lies
wholly beyond the 0x100 bytes of raw data. -/
def demoSection2 : SectionSpec :=
  { virtualAddress := 0x1000, virtualSize := 0x2000,
    pointerToRawData := 0, sizeOfRawData := 0x100 }

/-- The three-page loader after capturing the variant section. -/
def demoCaptured2 : ImageLoader :=
  demoLoader3.captureImageSection demoFileData demoSection2

/-- Counterexample to claim C5 as stated: in the claim's own example (raw size
0x100, virtual size 0x200 at VA 0x1000) the remaining range [0x1100, 0x1200)
is not represented by zero pages without a backing buffer — the page holding
that range is a valid page (`isZeroPage = false`) owning a 4096-byte
buffer. -/
theorem capture_partial_page_is_not_zero_page :
    (demoCaptured1.pages.getD (0x1100 >>> PELIB_PAGE_SIZE_SHIFT)
        PELIB_FILE_PAGE.init).isZeroPage = false ∧
      (demoCaptured1.pages.getD (0x1100 >>> PELIB_PAGE_SIZE_SHIFT)
          PELIB_FILE_PAGE.init).isInvalidPage = false ∧
      (demoCaptured1.pages.getD (0x1100 >>> PELIB_PAGE_SIZE_SHIFT)
          PELIB_FILE_PAGE.init).buffer.length = 4096 := by
  have hp : demoCaptured1.pages.getD (0x1100 >>> PELIB_PAGE_SIZE_SHIFT)
      PELIB_FILE_PAGE.init = PELIB_FILE_PAGE.init.setValidPage demoFileData 0x100 := rfl
  rw [hp]
  exact ⟨setValidPage_isZeroPage _ _ _, setValidPage_isInvalidPage _ _ _,
    setValidPage_length _ _ _⟩

theorem demoCaptured1_readByte (i : Nat) (hi : i < 0x1000) :
    demoCaptured1.readByte (0x1000 + i) =
      if i < 0x100 then demoFileData.getD i 0 else 0 := by
  unfold ImageLoader.readByte
  have h1 : (0x1000 + i) >>> PELIB_PAGE_SIZE_SHIFT = 1 := by
    rw [show PELIB_PAGE_SIZE_SHIFT = 12 from rfl, Nat.shiftRight_eq_div_pow,
      show (2 : Nat) ^ 12 = 4096 from by norm_num]
    omega
  have h2 : (0x1000 + i) &&& (PELIB_PAGE_SIZE - 1) = i := by
    rw [show PELIB_PAGE_SIZE - 1 = 2 ^ 12 - 1 from by norm_num [PELIB_PAGE_SIZE],
      Nat.and_pow_two_sub_one_eq_mod,
      show (2 : Nat) ^ 12 = 4096 from by norm_num]
    omega
  rw [h1, h2]
  have hp : demoCaptured1.pages.getD 1 PELIB_FILE_PAGE.init
      = PELIB_FILE_PAGE.init.setValidPage demoFileData 0x100 := rfl
  rw [hp, readPageByte_setValidPage]
  rw [setValidPage_getD PELIB_FILE_PAGE.init demoFileData 0x100 i
    (by decide) (by decide) hi]

/-- Claim C5 (amended): in the scenario with raw size 0x100 < virtual size
0x200 at VA 0x1000, reading the first raw-size bytes returns the file
content at the raw pointer and reading the remainder up to the virtual size
returns zero bytes; that sub-page remainder lives in the final valid page,
whose buffer `setValidPage` zero-fills, while only destination pages lying
wholly beyond the raw data (as in the virtual-size-0x2000 variant) become
zero pages without a backing buffer. -/
theorem capture_section_scenario :
    (∀ i, i < 0x100 → demoCaptured1.readByte (0x1000 + i) = 0xAA) ∧
      (∀ i, 0x100 ≤ i → i < 0x200 → demoCaptured1.readByte (0x1000 + i) = 0) ∧
      (demoCaptured1.pages.getD 1 PELIB_FILE_PAGE.init).isZeroPage = false ∧
      (demoCaptured1.pages.getD 1 PELIB_FILE_PAGE.init).buffer.length = 4096 ∧
      (demoCaptured2.pages.getD 2 PELIB_FILE_PAGE.init).isZeroPage = true ∧
      (demoCaptured2.pages.getD 2 PELIB_FILE_PAGE.init).buffer = [] := by
  refine ⟨?_, ?_, ?_, ?_, rfl, rfl⟩
  · intro i hi
    rw [demoCaptured1_readByte i (by omega), if_pos hi]
    exact getD_replicate 0x100 i 0xAA hi
  · intro i h1 h2
    rw [demoCaptured1_readByte i (by omega), if_neg (by omega)]
  · exact (capture_partial_page_is_not_zero_page).1
  · exact (capture_partial_page_is_not_zero_page).2.2

/-- Witness for C5 (amended): concrete reads inside and beyond the raw data. -/
theorem capture_section_scenario_witness :
    demoCaptured1.readByte (0x1000 + 0x80) = 0xAA ∧
      demoCaptured1.readByte (0x1000 + 0x180) = 0 :=
  ⟨capture_section_scenario.1 0x80 (by decide),
    capture_section_scenario.2.1 0x180 (by decide) (by decide)⟩
